import Mathlib

/-!
# Verification of the resilient HTTP client engine (fsandov/go-sdk, pkg/client)

Shallow embedding of the request-execution core: endpoint-policy resolution
(`applyDefaults`, `ValidateEndpointConfig`, `resolveConfig`), the retry loop of
`Client.Do`, response materialization, error classification and fallback
normalization, plus the circuit-breaker, cache and metrics middlewares from the
middleware file.  Durations are modelled in nanoseconds (Go `time.Duration`),
byte slices as `List Nat`, and Go `(value, error)` pairs as explicit options.
External collaborators (gobreaker, prometheus, the cache backend) are modelled
at their call contracts, as the code relies on them.
-/

namespace GoSdk

/-- Go `time.Second` in nanoseconds. -/
def second : Int := 1000000000

/-- Go `time.Millisecond` in nanoseconds. -/
def millisecond : Int := 1000000

/-- Raw bytes of a body (`[]byte`). -/
abbrev Bytes := List Nat

/-- An `io.ReadCloser` response body: a one-shot network stream handed over by
the transport, an in-memory re-readable buffer
(`io.NopCloser(bytes.NewReader …)`), or a network stream after `Close` —
net/http bodies fail every read once closed. -/
inductive RespBody
  | stream (bytes : Bytes)
  | buffer (bytes : Bytes)
  | closedStream
deriving Repr, DecidableEq

/-- `Body.Close()`: a network stream transitions to the closed state (further
reads fail); an `io.NopCloser` buffer ignores `Close`. -/
def RespBody.close : RespBody → RespBody
  | .stream _ => .closedStream
  | .buffer b => .buffer b
  | .closedStream => .closedStream

/-- `io.ReadAll` on a body: the bytes it accumulated and whether it returned an
error.  An open stream or buffer yields its full bytes; a closed network body
fails immediately ("http: read on closed response body") having accumulated
nothing. -/
def RespBody.readAll : RespBody → Bytes × Bool
  | .stream b => (b, false)
  | .buffer b => (b, false)
  | .closedStream => ([], true)

/-- The parts of `*http.Response` the client core inspects. -/
structure HttpResponse where
  status : String := ""
  statusCode : Int := 0
  header : List (String × String) := []
  body : Option RespBody := none
  contentLength : Int := 0
deriving Repr, DecidableEq

/-- The `resp.Body.Close()` the retry branch performs on the response it holds
(guarded by `resp != nil && resp.Body != nil`): the body, if any, is closed in
place; everything else about the response survives. -/
def HttpResponse.closeBody (r : HttpResponse) : HttpResponse :=
  { r with body := r.body.map RespBody.close }

/-- A Go transport-level `error` value, identified by its message. -/
abbrev TransportErr := String

/-- Result of one `RoundTrip`: `(resp *http.Response, err error)`. -/
abbrev TransportResult := Option HttpResponse × Option TransportErr

/-- A reference to a `*gobreaker.CircuitBreaker` held by the settings:
either one supplied by the caller or the one `applyDefaults` creates. -/
inductive BreakerRef
  | supplied (id : Nat)
  | defaulted
deriving Repr, DecidableEq

/-- The structured `*client.Error` from errors.go: status code, last raw body,
underlying cause, retry counter, method, URL and the last response. -/
structure Error where
  statusCode : Int := 0
  body : Option Bytes := none
  err : Option TransportErr := none
  retries : Int := 0
  method : String := ""
  url : String := ""
  lastResponse : Option HttpResponse := none
deriving Repr, DecidableEq

/-- An `error` value returned by a fallback function: either already a
`*client.Error`, or a bare untyped error. -/
inductive FallbackErr
  | typed (ce : Error)
  | bare (e : TransportErr)

/-- `client.EndpointSettings` (endpoint configuration file).  Function-valued
fields keep their Go nilability as `Option`.  The fallback takes the transport
error of the failed call (its `*http.Request` argument is fixed per call and
is absorbed into the closure). -/
structure EndpointSettings where
  timeout : Int := 0
  maxRetries : Int := 0
  shouldRetry : Option (Option HttpResponse → Option TransportErr → Bool) := none
  backoffStrategy : Option (Int → Int) := none
  headers : Option (List (String × String)) := none
  requireAuth : Bool := false
  breaker : Option BreakerRef := none
  enableCache : Bool := false
  cacheTTL : Int := 0
  fallback : Option (Option TransportErr → Option HttpResponse × Option FallbackErr) := none
  maxResponseSize : Int := 0

/-- `applyDefaults` from the endpoint configuration file: nil settings become
the zero value, then timeout 0 → 10s, maxRetries 0 → 2, a breaker is created
if none was supplied, and a nil headers map becomes an empty map. -/
def applyDefaults (cfg0 : Option EndpointSettings) : EndpointSettings :=
  let cfg := cfg0.getD {}
  let cfg := if cfg.timeout = 0 then { cfg with timeout := 10 * second } else cfg
  let cfg := if cfg.maxRetries = 0 then { cfg with maxRetries := 2 } else cfg
  let cfg := if cfg.breaker.isNone then { cfg with breaker := some .defaulted } else cfg
  if cfg.headers.isNone then { cfg with headers := some [] } else cfg

/-- `ValidateEndpointConfig` (endpoint configuration file): logs, and fills
timeout and breaker if still unset.  `Client.Do` always calls it on the output
of `applyDefaults`, so the nil-settings branch (log only) cannot trigger. -/
def ValidateEndpointConfig (settings : EndpointSettings) : EndpointSettings :=
  let settings :=
    if settings.timeout = 0 then { settings with timeout := 10 * second } else settings
  if settings.breaker.isNone then { settings with breaker := some .defaulted } else settings

/-- Policy resolution at the top of `Client.Do`: ask the endpoint-config
function; a nil result falls back to the client's default settings; then
`applyDefaults` and `ValidateEndpointConfig`. -/
def resolveConfig (endpointConfig : Option (String → String → Option EndpointSettings))
    (defaultSettings : EndpointSettings) (method path : String) : EndpointSettings :=
  let cfg :=
    match endpointConfig with
    | some ec => ec method path
    | none => none
  let cfg :=
    match cfg with
    | some c => c
    | none => defaultSettings
  ValidateEndpointConfig (applyDefaults (some cfg))

/-- The default retry predicate of `Client.Do`: retry on any transport error,
or on a response with status ≥ 500. -/
def defaultShouldRetry (resp : Option HttpResponse) (err : Option TransportErr) : Bool :=
  err.isSome || (match resp with | some r => 500 ≤ r.statusCode | none => false)

/-- The default backoff of `Client.Do`: constant 200ms. -/
def defaultBackoff (_attempt : Int) : Int := 200 * millisecond

/-- Outcome of the retry loop of `Client.Do`, with ghost instrumentation:
`attempts` counts invocations of the decorated transport, `bodyCloses` counts
`resp.Body.Close()` calls on discarded attempts. -/
structure RetryLoopResult where
  resp : Option HttpResponse
  err : Option TransportErr
  retry : Int
  attempts : Nat
  bodyCloses : Nat
deriving Repr

/-- One pass of the `for retry = 0; retry <= cfg.MaxRetries; retry++` loop of
`Client.Do`, recursing on the remaining number of loop iterations
(`fuel = (maxRetries - retry + 1).toNat`, kept by the caller).  The transport
is indexed by the invocation count so each attempt may observe a different
server answer.  `time.Sleep(backoffStrategy(retry))` has no observable effect
here; `timedRetryLoopGo` below instruments it. -/
def retryLoopGo (shouldRetry : Option HttpResponse → Option TransportErr → Bool)
    (transport : Nat → TransportResult) :
    Nat → Int → Option HttpResponse → Option TransportErr → Nat → Nat → RetryLoopResult
  | 0, retry, resp, err, attempts, closes => ⟨resp, err, retry, attempts, closes⟩
  | fuel + 1, retry, _, _, attempts, closes =>
    let r := (transport attempts).1
    let e := (transport attempts).2
    if shouldRetry r e then
      let closes :=
        closes + (match r with | some resp => if resp.body.isSome then 1 else 0 | none => 0)
      retryLoopGo shouldRetry transport fuel (retry + 1) (r.map HttpResponse.closeBody) e
        (attempts + 1) closes
    else
      ⟨r, e, retry, attempts + 1, closes⟩

/-- The retry loop of `Client.Do`: starts at `retry = 0` with zero-valued
`resp`/`err`; with `maxRetries < 0` the body never runs. -/
def retryLoop (shouldRetry : Option HttpResponse → Option TransportErr → Bool)
    (maxRetries : Int) (transport : Nat → TransportResult) : RetryLoopResult :=
  retryLoopGo shouldRetry transport (maxRetries + 1).toNat 0 none none 0 0

/-- Result of the response-materialization step after the loop settles. -/
structure MaterializedFinal where
  resp : Option HttpResponse
  bodyBytes : Option Bytes
  finalReads : Nat
deriving Repr, DecidableEq

/-- The materialization step of `Client.Do`: if the final response has a
non-nil body, `io.ReadAll` it once (counted in `finalReads`) with the read
error discarded (`body, _ = io.ReadAll(resp.Body)`), close it, and replace it
with a fresh re-readable buffer over whatever bytes the read yielded — all of
them for a body left open, none for a body the retry loop already closed. -/
def materializeFinal (resp : Option HttpResponse) : MaterializedFinal :=
  match resp with
  | some r =>
    match r.body with
    | some bd =>
      ⟨some { r with body := some (.buffer (bd.readAll).1) }, some (bd.readAll).1, 1⟩
    | none => ⟨some r, none, 0⟩
  | none => ⟨none, none, 0⟩

/-- `client.HooksConfig`: whether each optional callback is configured.  The
callbacks' own behavior never influences any output of `Client.Do` (see the
hook-event trace of `clientDo`), so only their presence is modelled. -/
structure HooksConfig where
  preRequest : Bool := false
  postRequest : Bool := false
  onError : Bool := false
deriving Repr, DecidableEq

/-- A hook dispatch, as the specification describes it: pre-call with
method/path, post-call with method/path/status, on-error with method/path and
the structured error. -/
inductive HookEvent
  | preCall (method path : String)
  | postCall (method path : String) (status : Int)
  | errorCall (method path : String) (ce : Error)
deriving Repr, DecidableEq

/-- Outcome of one `Client.Do` call, with ghost instrumentation: transport
invocations, body closes of discarded attempts, `io.ReadAll` count on the
final response, and the trace of hook dispatches performed. -/
structure DoResult where
  resp : Option HttpResponse
  err : Option Error
  attempts : Nat
  bodyCloses : Nat
  finalReads : Nat
  hookEvents : List HookEvent
deriving Repr, DecidableEq

/-- The retry predicate `Client.Do` ends up using: `cfg.ShouldRetry`, or the
default predicate when it is nil. -/
def resolvedShouldRetry (cfg : EndpointSettings) :
    Option HttpResponse → Option TransportErr → Bool :=
  cfg.shouldRetry.getD defaultShouldRetry

/-- The retry loop `Client.Do` runs for a given resolved configuration. -/
def doLoop (cfg : EndpointSettings) (transport : Nat → TransportResult) : RetryLoopResult :=
  retryLoop (resolvedShouldRetry cfg) cfg.maxRetries transport

/-- `Client.Do` (pkg/client/client.go): resolve the policy, run the retry loop
with the default predicate when `cfg.ShouldRetry` is nil, materialize the final
body, classify, and route through the fallback when one is configured.  The
request-header merging and auth-token injection mutate only the outbound
request, which the abstract per-attempt transport consumes; no modelled output
depends on them.  The source never reads `c.options.hooks` inside `Do`, so no
branch appends to the hook-event trace. -/
def clientDo (endpointConfig : Option (String → String → Option EndpointSettings))
    (defaultSettings : EndpointSettings) (hooks : HooksConfig)
    (method url path : String) (transport : Nat → TransportResult) : DoResult :=
  let cfg := resolveConfig endpointConfig defaultSettings method path
  let L := doLoop cfg transport
  let M := materializeFinal L.resp
  if L.err.isSome || (match L.resp with | some r => 400 ≤ r.statusCode | none => false) then
    let ce0 : Error :=
      { statusCode := 0, err := L.err, retries := L.retry,
        method := method, url := url, lastResponse := M.resp }
    let ce :=
      match L.resp with
      | some r => { ce0 with statusCode := r.statusCode, body := M.bodyBytes }
      | none => ce0
    match cfg.fallback with
    | some fb =>
      let fbResp := (fb L.err).1
      match (fb L.err).2 with
      | some (.typed cErr) => ⟨fbResp, some cErr, L.attempts, L.bodyCloses, M.finalReads, []⟩
      | some (.bare e) =>
        ⟨fbResp, some { err := some e, method := method, url := url },
         L.attempts, L.bodyCloses, M.finalReads, []⟩
      | none => ⟨fbResp, none, L.attempts, L.bodyCloses, M.finalReads, []⟩
    | none => ⟨M.resp, some ce, L.attempts, L.bodyCloses, M.finalReads, []⟩
  else
    ⟨M.resp, none, L.attempts, L.bodyCloses, M.finalReads, []⟩

/-- A timed event of the retry loop: an attempt started at clock `t`, or a
`time.Sleep` that began at `start` and ran its full duration `dur` (Go's
`time.Sleep` takes no context and cannot be cancelled). -/
inductive TimedEvent
  | attemptStart (i : Nat) (t : Int)
  | sleepFull (start dur : Int)
deriving Repr, DecidableEq

/-- Outcome of the clock-instrumented retry loop. -/
structure TimedLoopResult where
  resp : Option HttpResponse
  err : Option TransportErr
  retry : Int
  attempts : Nat
  clock : Int
  events : List TimedEvent
deriving Repr, DecidableEq

/-- The same `Client.Do` loop as `retryLoopGo`, instrumenting real time: the
transport maps (invocation index, start clock) to (result, end clock), and the
`if retry < cfg.MaxRetries { time.Sleep(backoffStrategy(retry)) }` step always
advances the clock by the full backoff, deadline or not, exactly as
`time.Sleep` does. -/
def timedRetryLoopGo (shouldRetry : Option HttpResponse → Option TransportErr → Bool)
    (maxRetries : Int) (backoff : Int → Int)
    (transport : Nat → Int → TransportResult × Int) :
    Nat → Int → Int → Option HttpResponse → Option TransportErr → Nat → List TimedEvent →
      TimedLoopResult
  | 0, retry, now, resp, err, attempts, evs => ⟨resp, err, retry, attempts, now, evs⟩
  | fuel + 1, retry, now, _, _, attempts, evs =>
    let r := (transport attempts now).1.1
    let e := (transport attempts now).1.2
    let fin := (transport attempts now).2
    let evs := evs ++ [.attemptStart attempts now]
    if shouldRetry r e then
      if retry < maxRetries then
        let d := backoff retry
        timedRetryLoopGo shouldRetry maxRetries backoff transport fuel (retry + 1)
          (fin + d) r e (attempts + 1) (evs ++ [.sleepFull fin d])
      else
        timedRetryLoopGo shouldRetry maxRetries backoff transport fuel (retry + 1)
          fin r e (attempts + 1) evs
    else
      ⟨r, e, retry, attempts + 1, fin, evs⟩

/-- The clock-instrumented retry loop of `Client.Do`, started at clock `start`. -/
def timedRetryLoop (shouldRetry : Option HttpResponse → Option TransportErr → Bool)
    (maxRetries : Int) (backoff : Int → Int)
    (transport : Nat → Int → TransportResult × Int) (start : Int) : TimedLoopResult :=
  timedRetryLoopGo shouldRetry maxRetries backoff transport (maxRetries + 1).toNat 0 start
    none none 0 []

/-- Durations of the sleeps performed, in order. -/
def sleepDurations (evs : List TimedEvent) : List Int :=
  evs.filterMap (fun ev => match ev with | .sleepFull _ d => some d | _ => none)

/-- Start clocks of the attempts performed, in order. -/
def attemptStartTimes (evs : List TimedEvent) : List Int :=
  evs.filterMap (fun ev => match ev with | .attemptStart _ t => some t | _ => none)

/-- The operation `CircuitBreakerMiddleware` passes to `breaker.Execute`
(middleware file): call inward, and on a transport error or a response with
status ≥ 500 return `(nil, err)` — where `err` is the transport error, hence
nil when only the status was ≥ 500; otherwise return `(resp, nil)`. -/
def breakerOperation (inner : TransportResult) : Option HttpResponse × Option TransportErr :=
  if inner.2.isSome || (match inner.1 with | some r => 500 ≤ r.statusCode | none => false) then
    (none, inner.2)
  else
    (inner.1, none)

/-- gobreaker collaborator contract: an `Execute` outcome counts as a failure
for the breaker's statistics iff the operation returned a non-nil error
(default `IsSuccessful`). -/
def breakerCountsFailure (inner : TransportResult) : Bool :=
  (breakerOperation inner).2.isSome

/-- gobreaker collaborator contract: `Counts.ConsecutiveFailures` after a run
of operation outcomes — incremented on a failure outcome, reset to 0 on a
success outcome. -/
def breakerConsecutiveFailures (inners : List TransportResult) : Nat :=
  inners.foldl (fun acc inner => if breakerCountsFailure inner then acc + 1 else 0) 0

/-- A stored cache value (`cacheEntry` of the middleware file).  The JSON
marshal/unmarshal round trip of the entry is modelled as the identity. -/
structure CacheEntry where
  status : String := ""
  statusCode : Int := 0
  header : List (String × String) := []
  body : Bytes := []
deriving Repr, DecidableEq

/-- One key of the cache backend, with its optional absolute expiration. -/
structure CacheSlot where
  key : String
  entry : CacheEntry
  expiration : Option Int
deriving Repr, DecidableEq

abbrev CacheState := List CacheSlot

/-- Cache backend `Get` (pkg/cache/memory.go): a key is found unless absent or
expired (`!expiration.IsZero() && expiration.Before(now)`). -/
def cacheGet (st : CacheState) (now : Int) (key : String) : Option CacheEntry :=
  match st.find? (fun s => s.key == key) with
  | none => none
  | some slot =>
    match slot.expiration with
    | some exp => if exp < now then none else some slot.entry
    | none => some slot.entry

/-- Cache backend `Set` (pkg/cache/memory.go): store under `key`, expiring at
`now + ttl` when `ttl > 0`, never otherwise; overwrites an existing key. -/
def cacheSet (st : CacheState) (now : Int) (key : String) (entry : CacheEntry) (ttl : Int) :
    CacheState :=
  ⟨key, entry, if 0 < ttl then some (now + ttl) else none⟩ ::
    st.filter (fun s => s.key != key)

/-- The parts of `*http.Request` the cache middleware inspects. -/
structure Request where
  method : String := ""
  url : String := ""
  header : List (String × String) := []
deriving Repr, DecidableEq

/-- `http.Header.Get`: first value for the name, `""` when absent
(canonicalization of header names is not modelled; names are used verbatim). -/
def headerGet (h : List (String × String)) (name : String) : String :=
  match h.find? (fun p => p.1 == name) with
  | some p => p.2
  | none => ""

/-- `http.Header.Del`. -/
def headerDel (h : List (String × String)) (name : String) : List (String × String) :=
  h.filter (fun p => p.1 != name)

/-- `client.CacheConfig` (middleware file). -/
structure CacheConfig where
  defaultTTL : Int := 0
  methods : List String := []
  statusCodes : List Int := []
  keyFunc : Option (Request → String) := none
  skipCacheHeader : String := ""

/-- `defaultCacheKey`: method + ":" + full URL. -/
def defaultCacheKey (r : Request) : String := r.method ++ ":" ++ r.url

/-- Outcome of one `cacheTransport.RoundTrip`, with the updated backend state
and a ghost flag telling whether the inner transport was invoked. -/
structure CacheRTResult where
  resp : Option HttpResponse
  err : Option TransportErr
  state : CacheState
  innerCalled : Bool

/-- `ReadAndRestoreBody` (middleware file): a nil body yields nil bytes and no
error; otherwise read the body fully — a failed read returns the read error
without restoring anything — and on success close it and replace it with a
fresh buffer over the bytes read, returning those bytes. -/
def ReadAndRestoreBody (r : HttpResponse) : Except TransportErr (HttpResponse × Bytes) :=
  match r.body with
  | none => .ok (r, [])
  | some bd =>
    if (bd.readAll).2 then .error "http: read on closed response body"
    else .ok ({ r with body := some (.buffer (bd.readAll).1) }, (bd.readAll).1)

/-- Forwarding inward without cache involvement. The inner transport obeys the
`RoundTrip` contract: exactly one of response and error. -/
def cachePassThrough (next : Request → Except TransportErr HttpResponse) (req : Request)
    (st : CacheState) : CacheRTResult :=
  match next req with
  | .ok r => ⟨some r, none, st, true⟩
  | .error e => ⟨none, some e, st, true⟩

/-- `cacheTransport.RoundTrip` (middleware file): read the resolved settings
from the request context; pass through when caching is off, when the skip
header is `"true"` (stripping it), or when the method is not allow-listed; on
a hit synthesize the response from the stored entry without calling inward; on
a miss call inward, buffer the body (`ReadAndRestoreBody`), and store the
snapshot when the status is allow-listed.  `CacheMiddleware` installs
`defaultCacheKey` when no key function is configured and returns no middleware
at all when the backend is nil, so the backend always exists here and the
"EnableCache but no backend" warning branch cannot trigger. -/
def cacheRoundTrip (config : CacheConfig) (cfg : Option EndpointSettings)
    (req : Request) (now : Int) (st : CacheState)
    (next : Request → Except TransportErr HttpResponse) : CacheRTResult :=
  let enableCache := match cfg with | some c => c.enableCache | none => false
  let ttl :=
    match cfg with
    | some c => if 0 < c.cacheTTL then c.cacheTTL else config.defaultTTL
    | none => config.defaultTTL
  if !enableCache then
    cachePassThrough next req st
  else if headerGet req.header config.skipCacheHeader == "true" then
    cachePassThrough next { req with header := headerDel req.header config.skipCacheHeader } st
  else if !(config.methods.contains req.method) then
    cachePassThrough next req st
  else
    let key := (config.keyFunc.getD defaultCacheKey) req
    match cacheGet st now key with
    | some entry =>
      ⟨some { status := entry.status, statusCode := entry.statusCode,
              header := entry.header, body := some (.buffer entry.body),
              contentLength := entry.body.length }, none, st, false⟩
    | none =>
      match next req with
      | .error e => ⟨none, some e, st, true⟩
      | .ok resp =>
        match ReadAndRestoreBody resp with
        | .error e => ⟨none, some ("error reading response body: " ++ e), st, true⟩
        | .ok (resp2, bodyBytes) =>
          if config.statusCodes.contains resp.statusCode then
            let entry : CacheEntry :=
              { status := resp.status, statusCode := resp.statusCode,
                header := headerDel resp.header "X-Request-Id", body := bodyBytes }
            ⟨some resp2, none, cacheSet st now key entry ttl, true⟩
          else
            ⟨some resp2, none, st, true⟩

/-- prometheus collaborator contract: `BuildFQName` joins the non-empty parts
of namespace, subsystem and name with underscores. -/
def buildFQName (ns sub name : String) : String :=
  if name = "" then ""
  else (if ns = "" then "" else ns ++ "_") ++ (if sub = "" then "" else sub ++ "_") ++ name

/-- `client.MetricsConfig`. -/
structure MetricsConfig where
  Namespace : String := ""
  Subsystem : String := ""
deriving Repr, DecidableEq

/-- The fully qualified names of the three metric vectors `MetricsMiddleware`
creates: request duration, request count, error count. -/
def metricsDescriptors (ns sub : String) : List String :=
  [buildFQName ns sub "request_duration_seconds",
   buildFQName ns sub "requests_total",
   buildFQName ns sub "request_errors_total"]

/-- prometheus collaborator contract: `MustRegister` registers each collector
in turn against the default registry (a set of fully qualified names) and
panics on the first `AlreadyRegisteredError`; `.error` models the panic. -/
def mustRegisterAll : List String → List String → Except String (List String)
  | [], reg => .ok reg
  | d :: ds, reg =>
    if reg.contains d then .error ("duplicate metrics collector registration attempted: " ++ d)
    else mustRegisterAll ds (d :: reg)

/-- The registration effect of `MetricsMiddleware` (middleware file): a nil
config yields no middleware (`none`); otherwise an empty namespace defaults to
`"http_client"` and the three freshly created metric vectors are passed to
`prometheus.MustRegister`. -/
def metricsMiddlewareRegister (config : Option MetricsConfig) (reg : List String) :
    Option (Except String (List String)) :=
  match config with
  | none => none
  | some c =>
    let ns := if c.Namespace = "" then "http_client" else c.Namespace
    some (mustRegisterAll (metricsDescriptors ns c.Subsystem) reg)

/-- Modelled from the spec wording of claim C5 (section 4.1): "merge it over
the default policy (override fields take precedence, unset fields fall back to
defaults)" — a field-wise merge of the override `o` over the client's default
settings `base`, where a zero-valued field counts as unset.  The source has no
such merge; this definition exists to compare the claim against the code. -/
def specMergeSettings (base o : EndpointSettings) : EndpointSettings :=
  { timeout := if o.timeout = 0 then base.timeout else o.timeout
    maxRetries := if o.maxRetries = 0 then base.maxRetries else o.maxRetries
    shouldRetry := match o.shouldRetry with | some f => some f | none => base.shouldRetry
    backoffStrategy := match o.backoffStrategy with | some f => some f | none => base.backoffStrategy
    headers := match o.headers with | some h => some h | none => base.headers
    requireAuth := o.requireAuth || base.requireAuth
    breaker := match o.breaker with | some b => some b | none => base.breaker
    enableCache := o.enableCache || base.enableCache
    cacheTTL := if o.cacheTTL = 0 then base.cacheTTL else o.cacheTTL
    fallback := match o.fallback with | some f => some f | none => base.fallback
    maxResponseSize := if o.maxResponseSize = 0 then base.maxResponseSize else o.maxResponseSize }

/-! Concrete instances used by counterexamples and witnesses. -/

/-- A 500 response with no transport error, as the breaker middleware sees it. -/
def c1Resp500 : HttpResponse := { statusCode := 500 }

/-- A hooks configuration with all three callbacks present. -/
def c4Hooks : HooksConfig := { preRequest := true, postRequest := true, onError := true }

/-- A transport whose every attempt yields a 500 response and no error. -/
def c4Transport : Nat → TransportResult := fun _ => (some { statusCode := 500 }, none)

/-- Client default settings with an explicit 30s timeout. -/
def c5Default : EndpointSettings := { timeout := 30 * second, maxRetries := 3, headers := some [] }

/-- An endpoint override that sets only max-retries and leaves timeout unset. -/
def c5Override : EndpointSettings := { maxRetries := 5 }

/-- An endpoint-config function returning `c5Override` for every endpoint. -/
def c5OverrideFn : String → String → Option EndpointSettings := fun _ _ => some c5Override

/-- A second default-settings value, used to show defaults are ignored when an
override is returned. -/
def c5DefaultB : EndpointSettings := { timeout := 7 * second, maxRetries := 1 }

/-- The metrics configuration of the repository's own idempotent-registration
test (`TestMetricsMiddlewareIdempotentRegistration`). -/
def c8Config : MetricsConfig := { Namespace := "test_idempotent", Subsystem := "sub" }

/-- A timed transport for a call whose deadline expires at clock 10: before
the deadline an attempt takes one time unit and yields a 503; once the clock
has passed the deadline the attempt fails immediately with the context error,
as `http.Client.Do` does on an expired context. -/
def c9Transport : Nat → Int → TransportResult × Int := fun _ t =>
  if t < 10 then ((some { statusCode := 503 }, none), t + 1)
  else ((none, some "context deadline exceeded"), t)

/-- The timed retry loop run on `c9Transport` with the default predicate, the
default 200ms backoff and max-retries 2, starting at clock 0 (deadline 10). -/
def c9Run : TimedLoopResult := timedRetryLoop defaultShouldRetry 2 defaultBackoff c9Transport 0

/-- A 503 response carrying a body, returned on every attempt. -/
def w2Resp : HttpResponse := { statusCode := 503, body := some (.stream [104, 105]) }

/-- A transport answering every attempt with `w2Resp` and no error. -/
def w2Transport : Nat → TransportResult := fun _ => (some w2Resp, none)

/-- A 503 response with a one-byte body. -/
def w3Resp : HttpResponse := { statusCode := 503, body := some (.stream [101]) }

/-- A transport answering every attempt with `w3Resp` and no error. -/
def w3Transport : Nat → TransportResult := fun _ => (some w3Resp, none)

/-- A 404 response with a one-byte body: the default predicate does not retry
it, so the loop breaks without closing the body. -/
def w3aResp : HttpResponse := { statusCode := 404, body := some (.stream [102]) }

/-- A transport answering every attempt with `w3aResp` and no error. -/
def w3aTransport : Nat → TransportResult := fun _ => (some w3aResp, none)

/-- A synthesized 200 response, as a fallback would build it. -/
def w6Resp200 : HttpResponse := { statusCode := 200, body := some (.buffer [111, 107]) }

/-- A fallback returning the synthesized 200 response and a nil error for any
triggering transport error. -/
def w6Fb : Option TransportErr → Option HttpResponse × Option FallbackErr :=
  fun _ => (some w6Resp200, none)

/-- Default settings carrying the `w6Fb` fallback. -/
def w6Settings : EndpointSettings := { fallback := some w6Fb }

/-- A transport modelling an unreachable host: every attempt fails with a
connection error and no response. -/
def w6Transport : Nat → TransportResult := fun _ => (none, some "connection refused")

/-- A cache middleware configuration: TTL 3, GET allow-listed, status 200
cacheable. -/
def w7Config : CacheConfig :=
  { defaultTTL := 3, methods := ["GET"], statusCodes := [200],
    keyFunc := none, skipCacheHeader := "X-Skip-Cache" }

/-- Resolved settings with caching enabled and no per-endpoint TTL. -/
def w7Settings : EndpointSettings := { enableCache := true }

/-- A GET request with no headers. -/
def w7Req : Request := { method := "GET", url := "http://api.example.com/items" }

/-- The origin's answer to the first request: 200 with a four-byte body. -/
def w7Resp : HttpResponse :=
  { status := "200 OK", statusCode := 200, body := some (.stream [104, 111, 108, 97]) }

/-- First inner transport: returns `w7Resp`. -/
def w7Next1 : Request → Except TransportErr HttpResponse := fun _ => .ok w7Resp

/-- Second inner transport: must not be reached; fails loudly if it is. -/
def w7Next2 : Request → Except TransportErr HttpResponse := fun _ => .error "origin reached"

/-- Settings with max-retries explicitly configured to 0. -/
def w10Settings : EndpointSettings := { maxRetries := 0 }

/-- A transport answering every attempt with a bare 503 and no error. -/
def w10Transport : Nat → TransportResult := fun _ => (some { statusCode := 503 }, none)

/-! ## Helper lemmas -/

theorem HttpResponse_closeBody_statusCode (r : HttpResponse) :
    r.closeBody.statusCode = r.statusCode := rfl

theorem applyDefaults_some (s : EndpointSettings) :
    applyDefaults (some s) =
      { s with
        timeout := if s.timeout = 0 then 10 * second else s.timeout
        maxRetries := if s.maxRetries = 0 then 2 else s.maxRetries
        breaker := if s.breaker.isNone then some .defaulted else s.breaker
        headers := if s.headers.isNone then some [] else s.headers } := by
  by_cases h1 : s.timeout = 0 <;> by_cases h2 : s.maxRetries = 0 <;>
    by_cases h3 : s.breaker.isNone <;> by_cases h4 : s.headers.isNone <;>
    simp [applyDefaults, h1, h2, h3, h4]

theorem applyDefaults_none : applyDefaults none = applyDefaults (some {}) := rfl

theorem applyDefaults_timeout_ne_zero (s0 : Option EndpointSettings) :
    (applyDefaults s0).timeout ≠ 0 := by
  cases s0 with
  | none =>
    rw [applyDefaults_none, applyDefaults_some]
    decide
  | some s =>
    rw [applyDefaults_some]
    by_cases h : s.timeout = 0 <;> simp [h, second]

theorem applyDefaults_breaker_isSome (s0 : Option EndpointSettings) :
    (applyDefaults s0).breaker.isNone = false := by
  cases s0 with
  | none =>
    rw [applyDefaults_none, applyDefaults_some]
    decide
  | some s =>
    rw [applyDefaults_some]
    cases hb : s.breaker <;> simp [hb]

theorem applyDefaults_maxRetries_ne_zero (s0 : Option EndpointSettings) :
    (applyDefaults s0).maxRetries ≠ 0 := by
  cases s0 with
  | none =>
    rw [applyDefaults_none, applyDefaults_some]
    decide
  | some s =>
    rw [applyDefaults_some]
    by_cases h : s.maxRetries = 0 <;> simp [h]

theorem ValidateEndpointConfig_applyDefaults (s0 : Option EndpointSettings) :
    ValidateEndpointConfig (applyDefaults s0) = applyDefaults s0 := by
  unfold ValidateEndpointConfig
  rw [if_neg (applyDefaults_timeout_ne_zero s0)]
  rw [if_neg (by rw [applyDefaults_breaker_isSome s0]; exact Bool.false_ne_true)]

theorem resolveConfig_override {f : String → String → Option EndpointSettings}
    {m p : String} {o : EndpointSettings} (ds : EndpointSettings) (hf : f m p = some o) :
    resolveConfig (some f) ds m p = applyDefaults (some o) := by
  simp [resolveConfig, hf, ValidateEndpointConfig_applyDefaults]

theorem retryLoopGo_always_spec
    (shouldRetry : Option HttpResponse → Option TransportErr → Bool)
    (transport : Nat → TransportResult)
    (h : ∀ i, shouldRetry (transport i).1 (transport i).2 = true) :
    ∀ (fuel : Nat) (retry : Int) (resp : Option HttpResponse) (err : Option TransportErr)
      (attempts closes : Nat),
      (retryLoopGo shouldRetry transport (fuel + 1) retry resp err attempts closes).resp =
          ((transport (attempts + fuel)).1).map HttpResponse.closeBody ∧
        (retryLoopGo shouldRetry transport (fuel + 1) retry resp err attempts closes).err =
          (transport (attempts + fuel)).2 ∧
        (retryLoopGo shouldRetry transport (fuel + 1) retry resp err attempts closes).retry =
          retry + fuel + 1 ∧
        (retryLoopGo shouldRetry transport (fuel + 1) retry resp err attempts closes).attempts =
          attempts + fuel + 1 := by
  intro fuel
  induction fuel with
  | zero =>
    intro retry resp err attempts closes
    simp [retryLoopGo, h attempts]
  | succ n ih =>
    intro retry resp err attempts closes
    have step :
        retryLoopGo shouldRetry transport (n + 1 + 1) retry resp err attempts closes =
          retryLoopGo shouldRetry transport (n + 1) (retry + 1)
            (((transport attempts).1).map HttpResponse.closeBody)
            (transport attempts).2 (attempts + 1)
            (closes + (match (transport attempts).1 with
              | some resp => if resp.body.isSome then 1 else 0
              | none => 0)) := by
      simp [retryLoopGo, h attempts]
    rw [step]
    obtain ⟨h1, h2, h3, h4⟩ := ih (retry + 1)
      (((transport attempts).1).map HttpResponse.closeBody) (transport attempts).2
      (attempts + 1)
      (closes + (match (transport attempts).1 with
        | some resp => if resp.body.isSome then 1 else 0
        | none => 0))
    have hidx : attempts + 1 + n = attempts + (n + 1) := by omega
    refine ⟨?_, ?_, ?_, ?_⟩
    · rw [h1, hidx]
    · rw [h2, hidx]
    · rw [h3]; push_cast; ring
    · rw [h4]; omega

theorem retryLoop_always_spec
    (shouldRetry : Option HttpResponse → Option TransportErr → Bool)
    (transport : Nat → TransportResult)
    (h : ∀ i, shouldRetry (transport i).1 (transport i).2 = true)
    (m : Int) (hm : 0 ≤ m) :
    (retryLoop shouldRetry m transport).resp = ((transport m.toNat).1).map HttpResponse.closeBody ∧
      (retryLoop shouldRetry m transport).err = (transport m.toNat).2 ∧
      (retryLoop shouldRetry m transport).retry = m + 1 ∧
      (retryLoop shouldRetry m transport).attempts = m.toNat + 1 := by
  have hfuel : (m + 1).toNat = m.toNat + 1 := by omega
  unfold retryLoop
  rw [hfuel]
  obtain ⟨h1, h2, h3, h4⟩ := retryLoopGo_always_spec shouldRetry transport h m.toNat 0 none none 0 0
  refine ⟨?_, ?_, ?_, ?_⟩
  · simpa using h1
  · simpa using h2
  · rw [h3]; omega
  · rw [h4]; omega

theorem retryLoop_neg (shouldRetry : Option HttpResponse → Option TransportErr → Bool)
    (transport : Nat → TransportResult) (m : Int) (hm : m < 0) :
    retryLoop shouldRetry m transport = ⟨none, none, 0, 0, 0⟩ := by
  unfold retryLoop
  have hfuel : (m + 1).toNat = 0 := by omega
  rw [hfuel]
  rfl

theorem sleepDurations_append (l l' : List TimedEvent) :
    sleepDurations (l ++ l') = sleepDurations l ++ sleepDurations l' := by
  simp [sleepDurations]

theorem timedRetryLoopGo_always_spec
    (shouldRetry : Option HttpResponse → Option TransportErr → Bool)
    (maxRetries : Int) (backoff : Int → Int)
    (transport : Nat → Int → TransportResult × Int)
    (h : ∀ i t, shouldRetry (transport i t).1.1 (transport i t).1.2 = true) :
    ∀ (fuel : Nat) (retry now : Int) (resp : Option HttpResponse) (err : Option TransportErr)
      (attempts : Nat) (evs : List TimedEvent),
      retry + (fuel + 1) = maxRetries + 1 →
      (timedRetryLoopGo shouldRetry maxRetries backoff transport (fuel + 1) retry now resp err
            attempts evs).attempts = attempts + fuel + 1 ∧
        sleepDurations (timedRetryLoopGo shouldRetry maxRetries backoff transport (fuel + 1)
            retry now resp err attempts evs).events =
          sleepDurations evs ++
            (List.range fuel).map (fun j : Nat => backoff (retry + (j : Int))) := by
  intro fuel
  induction fuel with
  | zero =>
    intro retry now resp err attempts evs hinv
    have hlt : ¬ retry < maxRetries := by omega
    simp [timedRetryLoopGo, h attempts now, hlt, sleepDurations_append, sleepDurations]
  | succ n ih =>
    intro retry now resp err attempts evs hinv
    have hlt : retry < maxRetries := by omega
    have step :
        timedRetryLoopGo shouldRetry maxRetries backoff transport (n + 1 + 1) retry now resp err
            attempts evs =
          timedRetryLoopGo shouldRetry maxRetries backoff transport (n + 1) (retry + 1)
            ((transport attempts now).2 + backoff retry) (transport attempts now).1.1
            (transport attempts now).1.2 (attempts + 1)
            ((evs ++ [.attemptStart attempts now]) ++
              [.sleepFull (transport attempts now).2 (backoff retry)]) := by
      simp [timedRetryLoopGo, h attempts now, hlt]
    rw [step]
    obtain ⟨h1, h2⟩ := ih (retry + 1) ((transport attempts now).2 + backoff retry)
      (transport attempts now).1.1 (transport attempts now).1.2 (attempts + 1)
      ((evs ++ [.attemptStart attempts now]) ++
        [.sleepFull (transport attempts now).2 (backoff retry)])
      (by omega)
    constructor
    · rw [h1]; omega
    · rw [h2, sleepDurations_append, sleepDurations_append]
      have hev1 : sleepDurations [TimedEvent.attemptStart attempts now] = [] := rfl
      have hev2 : sleepDurations
          [TimedEvent.sleepFull (transport attempts now).2 (backoff retry)] = [backoff retry] :=
        rfl
      rw [hev1, hev2, List.range_succ_eq_map, List.map_cons, List.map_map]
      have harg : backoff (retry + ((0 : Nat) : Int)) = backoff retry := by norm_num
      have hfun : ((fun j : Nat => backoff (retry + (j : Int))) ∘ Nat.succ) =
          (fun j : Nat => backoff (retry + 1 + (j : Int))) := by
        funext j
        simp only [Function.comp]
        congr 1
        push_cast
        ring
      rw [harg, hfun]
      simp

theorem timedRetryLoop_always_spec
    (shouldRetry : Option HttpResponse → Option TransportErr → Bool)
    (maxRetries : Int) (backoff : Int → Int)
    (transport : Nat → Int → TransportResult × Int) (start : Int)
    (h : ∀ i t, shouldRetry (transport i t).1.1 (transport i t).1.2 = true)
    (hm : 0 ≤ maxRetries) :
    (timedRetryLoop shouldRetry maxRetries backoff transport start).attempts =
        maxRetries.toNat + 1 ∧
      sleepDurations (timedRetryLoop shouldRetry maxRetries backoff transport start).events =
        (List.range maxRetries.toNat).map (fun j : Nat => backoff (j : Int)) := by
  have hfuel : (maxRetries + 1).toNat = maxRetries.toNat + 1 := by omega
  unfold timedRetryLoop
  rw [hfuel]
  obtain ⟨h1, h2⟩ := timedRetryLoopGo_always_spec shouldRetry maxRetries backoff transport h
    maxRetries.toNat 0 start none none 0 [] (by omega)
  constructor
  · rw [h1]
    omega
  · rw [h2]
    simp [sleepDurations]

/-! ## Claim theorems -/

/-- C1: the claim says a response with status ≥ 500 and nil transport error
must be reported to the breaker as a failure outcome.  The code does the
opposite: the operation returns `(nil, err)` with `err` nil, gobreaker counts
the outcome as a success, and even nine consecutive 500-responses (three
client calls of three attempts each, the scenario of the repository's own
`TestCircuitBreakerMiddleware_E2E`, whose `ReadyToTrip` fires at 3 consecutive
failures) leave the consecutive-failure count at 0, so 5xx never counts toward
the trip threshold. -/
theorem c1_breaker_counts_5xx_as_success :
    breakerCountsFailure (some c1Resp500, none) = false ∧
      breakerOperation (some c1Resp500, none) = (none, none) ∧
      breakerConsecutiveFailures (List.replicate 9 (some c1Resp500, none)) = 0 := by
  decide

/-- C8: the claim (and the repository's own
`TestMetricsMiddlewareIdempotentRegistration`) says constructing the metrics
middleware twice with the same namespace/subsystem must not raise.  The code
passes three freshly created collectors to `prometheus.MustRegister` on every
construction, so the second construction panics with a duplicate-registration
error instead of reusing the existing descriptors.  Evaluated here at the
test's own configuration. -/
theorem c8_second_registration_panics :
    metricsMiddlewareRegister (some c8Config) [] =
        some (.ok ["test_idempotent_sub_request_errors_total",
                   "test_idempotent_sub_requests_total",
                   "test_idempotent_sub_request_duration_seconds"]) ∧
      metricsMiddlewareRegister (some c8Config)
          ["test_idempotent_sub_request_errors_total",
           "test_idempotent_sub_requests_total",
           "test_idempotent_sub_request_duration_seconds"] =
        some (.error ("duplicate metrics collector registration attempted: " ++
          "test_idempotent_sub_request_duration_seconds")) := by
  constructor
  · rfl
  · rfl

/-- C10: an explicitly configured max-retries of 0 is indistinguishable from
an unset value: `applyDefaults` rewrites it to 2, and consequently with the
default retry predicate and attempts that always trigger a retry, no
configured max-retries value yields exactly one transport attempt (negative
values yield zero attempts, everything else at least two). -/
theorem c10_zero_retries_indistinguishable (s : EndpointSettings)
    (transport : Nat → TransportResult)
    (h : ∀ i, defaultShouldRetry (transport i).1 (transport i).2 = true) :
    (s.maxRetries = 0 → (applyDefaults (some s)).maxRetries = 2) ∧
      (retryLoop defaultShouldRetry (applyDefaults (some s)).maxRetries transport).attempts ≠ 1 := by
  have hmr : (applyDefaults (some s)).maxRetries =
      if s.maxRetries = 0 then 2 else s.maxRetries := by
    rw [applyDefaults_some]
  constructor
  · intro h0
    rw [hmr, if_pos h0]
  · by_cases hneg : (applyDefaults (some s)).maxRetries < 0
    · rw [retryLoop_neg _ _ _ hneg]
      decide
    · have h0 : 0 ≤ (applyDefaults (some s)).maxRetries := by omega
      obtain ⟨-, -, -, h4⟩ :=
        retryLoop_always_spec defaultShouldRetry transport h (applyDefaults (some s)).maxRetries h0
      rw [h4]
      have hne := applyDefaults_maxRetries_ne_zero (some s)
      omega

/-- C10 witness: with max-retries explicitly 0 and an always-503 transport,
the resolved value is 2 and the loop makes 3 attempts — never exactly one. -/
theorem c10_witness :
    w10Settings.maxRetries = 0 ∧
      (applyDefaults (some w10Settings)).maxRetries = 2 ∧
      (retryLoop defaultShouldRetry (applyDefaults (some w10Settings)).maxRetries
          w10Transport).attempts = 3 ∧
      (retryLoop defaultShouldRetry (applyDefaults (some w10Settings)).maxRetries
          w10Transport).attempts ≠ 1 := by
  refine ⟨rfl, by decide, by decide, ?_⟩
  exact (c10_zero_retries_indistinguishable w10Settings w10Transport (fun _ => rfl)).2

/-- C4 counterexample: a client with all three hooks configured, against a
transport that always answers 500, so the call is classified as a failure —
yet `Client.Do` dispatches no hook at all (the claim requires at least the
pre-call and on-error dispatches at this input). -/
theorem c4_counterexample :
    c4Hooks.preRequest = true ∧ c4Hooks.postRequest = true ∧ c4Hooks.onError = true ∧
      (clientDo none {} c4Hooks "GET" "http://example.com/test" "/test" c4Transport).err.isSome =
        true ∧
      (clientDo none {} c4Hooks "GET" "http://example.com/test" "/test" c4Transport).hookEvents =
        [] := by
  decide

/-- C4 (amended): hooks passed via `WithHooks` are stored on the client but
never invoked — for every call, whatever its configuration, transport and
outcome, `Client.Do` dispatches no pre-call, post-call or on-error hook. -/
theorem c4_amended_no_hooks_dispatched
    (ec : Option (String → String → Option EndpointSettings)) (ds : EndpointSettings)
    (hooks : HooksConfig) (method url path : String) (transport : Nat → TransportResult) :
    (clientDo ec ds hooks method url path transport).hookEvents = [] := by
  unfold clientDo
  dsimp only
  split
  · split
    · split <;> rfl
    · rfl
  · rfl

/-- C5 counterexample: the claim says fields left unset in the override fall
back to the client's default settings.  With a default timeout of 30s and an
override that sets only max-retries, the resolved timeout is the structural
default 10s, not the client default 30s — the override replaces the default
policy wholesale, nothing is merged. -/
theorem c5_counterexample :
    (resolveConfig (some c5OverrideFn) c5Default "GET" "/x").timeout = 10 * second ∧
      (applyDefaults (some (specMergeSettings c5Default c5Override))).timeout = 30 * second ∧
      (10 : Int) * second ≠ 30 * second := by
  refine ⟨?_, ?_, ?_⟩ <;> decide

/-- C5 (amended): when the per-endpoint override returns a non-nil policy, it
is used in place of the default policy wholesale — the client's default
settings have no influence at all — and structural defaults then fill any
still-unset field: timeout 10s, max-retries 2, an empty headers mapping, and a
breaker created if none was supplied; resolution is total and never fails. -/
theorem c5_amended_override_replaces (ds ds' : EndpointSettings)
    (f : String → String → Option EndpointSettings) (m p : String) (o : EndpointSettings)
    (hf : f m p = some o) :
    resolveConfig (some f) ds m p = resolveConfig (some f) ds' m p ∧
      (resolveConfig (some f) ds m p).timeout =
        (if o.timeout = 0 then 10 * second else o.timeout) ∧
      (resolveConfig (some f) ds m p).maxRetries =
        (if o.maxRetries = 0 then 2 else o.maxRetries) ∧
      (resolveConfig (some f) ds m p).headers =
        (match o.headers with | some h => some h | none => some []) ∧
      (resolveConfig (some f) ds m p).breaker =
        (match o.breaker with | some b => some b | none => some .defaulted) := by
  have h1 := resolveConfig_override ds hf
  have h2 := resolveConfig_override ds' hf
  refine ⟨by rw [h1, h2], ?_, ?_, ?_, ?_⟩ <;> rw [h1, applyDefaults_some]
  · cases ho : o.headers <;> simp [ho]
  · cases hb : o.breaker <;> simp [hb]

/-- C5 witness: two different default settings, one override — identical
resolution, with the override's max-retries kept and the structural timeout
default applied. -/
theorem c5_witness :
    c5OverrideFn "GET" "/x" = some c5Override ∧
      resolveConfig (some c5OverrideFn) c5Default "GET" "/x" =
        resolveConfig (some c5OverrideFn) c5DefaultB "GET" "/x" ∧
      (resolveConfig (some c5OverrideFn) c5Default "GET" "/x").maxRetries = 5 ∧
      (resolveConfig (some c5OverrideFn) c5Default "GET" "/x").timeout = 10 * second := by
  obtain ⟨hsame, htimeout, hmax, -, -⟩ :=
    c5_amended_override_replaces c5Default c5DefaultB c5OverrideFn "GET" "/x" c5Override rfl
  exact ⟨rfl, hsame, by rw [hmax]; rfl, by rw [htimeout]; rfl⟩

/-- C2: with the default retry predicate in effect and every attempt yielding
a 503 response with no transport error, `Client.Do` runs the decorated
transport exactly `MaxRetries + 1` times and the last response observed is
what reaches classification: the resulting error carries the last response's
status and a nil cause — no synthetic "too many retries" error. -/
theorem c2_exact_attempts (ec : Option (String → String → Option EndpointSettings))
    (ds : EndpointSettings) (hooks : HooksConfig) (method url path : String)
    (transport : Nat → TransportResult)
    (hsr : (resolveConfig ec ds method path).shouldRetry = none)
    (hfb : (resolveConfig ec ds method path).fallback = none)
    (hm : 0 ≤ (resolveConfig ec ds method path).maxRetries)
    (h503 : ∀ i, (transport i).2 = none ∧
      ∃ r, (transport i).1 = some r ∧ r.statusCode = 503) :
    ∃ rLast, (transport (resolveConfig ec ds method path).maxRetries.toNat).1 = some rLast ∧
      (clientDo ec ds hooks method url path transport).attempts =
        (resolveConfig ec ds method path).maxRetries.toNat + 1 ∧
      (clientDo ec ds hooks method url path transport).resp =
        (materializeFinal (some rLast.closeBody)).resp ∧
      (clientDo ec ds hooks method url path transport).err =
        some { statusCode := rLast.statusCode,
               body := (materializeFinal (some rLast.closeBody)).bodyBytes,
               err := none,
               retries := (resolveConfig ec ds method path).maxRetries + 1,
               method := method, url := url,
               lastResponse := (materializeFinal (some rLast.closeBody)).resp } := by
  have hretry : ∀ i, resolvedShouldRetry (resolveConfig ec ds method path)
      (transport i).1 (transport i).2 = true := by
    intro i
    obtain ⟨he, r, hr, h503r⟩ := h503 i
    rw [resolvedShouldRetry, hsr, Option.getD_none, he, hr]
    simp [defaultShouldRetry, h503r]
  obtain ⟨he, rLast, hrLast, h503Last⟩ := h503 (resolveConfig ec ds method path).maxRetries.toNat
  obtain ⟨h1, h2, h3, h4⟩ := retryLoop_always_spec
    (resolvedShouldRetry (resolveConfig ec ds method path)) transport hretry
    (resolveConfig ec ds method path).maxRetries hm
  have hLresp : (doLoop (resolveConfig ec ds method path) transport).resp =
      some rLast.closeBody := by
    rw [doLoop, h1, hrLast]
    rfl
  have hLerr : (doLoop (resolveConfig ec ds method path) transport).err = none := by
    rw [doLoop, h2, he]
  have hLretry : (doLoop (resolveConfig ec ds method path) transport).retry =
      (resolveConfig ec ds method path).maxRetries + 1 := by
    rw [doLoop, h3]
  have hLatt : (doLoop (resolveConfig ec ds method path) transport).attempts =
      (resolveConfig ec ds method path).maxRetries.toNat + 1 := by
    rw [doLoop, h4]
  refine ⟨rLast, hrLast, ?_, ?_, ?_⟩
  · unfold clientDo
    dsimp only
    rw [hLresp, hLerr]
    simp only [Option.isSome_none, Bool.false_or, HttpResponse_closeBody_statusCode, h503Last, hfb]
    norm_num
    rw [hLatt]
  · unfold clientDo
    dsimp only
    rw [hLresp, hLerr]
    simp only [Option.isSome_none, Bool.false_or, HttpResponse_closeBody_statusCode, h503Last, hfb]
    norm_num
  · unfold clientDo
    dsimp only
    rw [hLresp, hLerr]
    simp only [Option.isSome_none, Bool.false_or, HttpResponse_closeBody_statusCode, h503Last, hfb]
    norm_num
    exact hLretry

/-- C2 witness: zero-value defaults resolve to max-retries 2, and against an
always-503 transport the call makes exactly 3 attempts. -/
theorem c2_witness :
    (0 : Int) ≤ (resolveConfig none {} "GET" "/x").maxRetries ∧
      (resolveConfig none {} "GET" "/x").maxRetries.toNat + 1 = 3 ∧
      (clientDo none {} {} "GET" "http://h/x" "/x" w2Transport).attempts =
        (resolveConfig none {} "GET" "/x").maxRetries.toNat + 1 := by
  obtain ⟨rLast, -, hatt, -, -⟩ := c2_exact_attempts none {} {} "GET" "http://h/x" "/x"
    w2Transport rfl rfl (by decide) (fun _ => ⟨rfl, w2Resp, rfl, rfl⟩)
  exact ⟨by decide, by decide, hatt⟩

/-- C3 counterexample: the claim requires `Error.Body` to hold the raw bytes
of the last response body, explicitly including the exhausted-retries case.
Against an always-503 transport whose responses carry the one-byte body
`[101]`, the last loop iteration takes the retry branch and closes the final
body before the post-loop read; the read fails (error discarded), so the call
performs its single read but recovers nothing: `Error.Body` is the empty byte
slice, not `[101]`. -/
theorem c3_counterexample :
    w3Resp.body = some (.stream [101]) ∧
      (clientDo none {} {} "GET" "http://h/x" "/x" w3Transport).finalReads = 1 ∧
      ((clientDo none {} {} "GET" "http://h/x" "/x" w3Transport).err.map Error.body) =
        some (some []) ∧
      some (some ([] : Bytes)) ≠ some (some [101]) := by
  decide

/-- C3 (amended): after the loop settles, if the final outcome carries a
response with a non-nil body and no fallback is configured, `Client.Do`
attempts the read exactly once and always replaces the body with a fresh
re-readable buffer over whatever bytes the read yielded, and a classified
failure's `Error.Body` holds exactly those bytes — which are the raw body
bytes only when the body was left open (the loop stopped via the predicate, or
the body was an in-memory buffer); when the loop exhausted its retries it
already closed the final network body, the read fails with its error
discarded, and the buffer and `Error.Body` are empty. -/
theorem c3_amended_read_after_close (ec : Option (String → String → Option EndpointSettings))
    (ds : EndpointSettings) (hooks : HooksConfig) (method url path : String)
    (transport : Nat → TransportResult) (r : HttpResponse) (bd : RespBody)
    (hresp : (doLoop (resolveConfig ec ds method path) transport).resp = some r)
    (hbody : r.body = some bd)
    (hfb : (resolveConfig ec ds method path).fallback = none) :
    (clientDo ec ds hooks method url path transport).resp =
        some { r with body := some (.buffer (bd.readAll).1) } ∧
      (clientDo ec ds hooks method url path transport).finalReads = 1 ∧
      (∀ ce, (clientDo ec ds hooks method url path transport).err = some ce →
        ce.body = some (bd.readAll).1) ∧
      (∀ b, bd = .stream b → (bd.readAll).1 = b) ∧
      (∀ b, bd = .buffer b → (bd.readAll).1 = b) ∧
      (bd = .closedStream → (bd.readAll).1 = []) := by
  have hM : materializeFinal (some r) =
      ⟨some { r with body := some (.buffer (bd.readAll).1) }, some (bd.readAll).1, 1⟩ := by
    simp [materializeFinal, hbody]
  have hmain : (clientDo ec ds hooks method url path transport).resp =
        some { r with body := some (.buffer (bd.readAll).1) } ∧
      (clientDo ec ds hooks method url path transport).finalReads = 1 ∧
      ∀ ce, (clientDo ec ds hooks method url path transport).err = some ce →
        ce.body = some (bd.readAll).1 := by
    unfold clientDo
    dsimp only
    rw [hresp, hM, hfb]
    split
    · refine ⟨rfl, rfl, ?_⟩
      intro ce hce
      rw [← Option.some_inj.mp hce]
    · refine ⟨rfl, rfl, ?_⟩
      intro ce hce
      exact absurd hce (by simp)
  refine ⟨hmain.1, hmain.2.1, hmain.2.2, ?_, ?_, ?_⟩
  · intro b hb
    rw [hb]
    rfl
  · intro b hb
    rw [hb]
    rfl
  · intro hb
    rw [hb]
    rfl

/-- C3 witness: a 404 response with body `[102]` is not retried, so the loop
breaks with the body still open: the call returns it as a buffer over `[102]`,
performs one read, and `Error.Body` holds the raw byte — while the exhausted
always-503 run of the counterexample loses its body to the loop's close. -/
theorem c3_witness :
    (doLoop (resolveConfig none {} "GET" "/x") w3aTransport).resp = some w3aResp ∧
      (clientDo none {} {} "GET" "http://h/x" "/x" w3aTransport).resp =
        some { w3aResp with body := some (.buffer [102]) } ∧
      (clientDo none {} {} "GET" "http://h/x" "/x" w3aTransport).finalReads = 1 ∧
      ((clientDo none {} {} "GET" "http://h/x" "/x" w3aTransport).err.map Error.body) =
        some (some [102]) ∧
      ((clientDo none {} {} "GET" "http://h/x" "/x" w3Transport).err.map Error.body) =
        some (some []) := by
  have h := c3_amended_read_after_close none {} {} "GET" "http://h/x" "/x" w3aTransport w3aResp
    (.stream [102]) (by decide) rfl rfl
  exact ⟨by decide, h.1, h.2.1, by decide, by decide⟩

/-- C6: when the classification is a failure and the resolved settings supply
a fallback, the fallback's own return value becomes the call's outcome.  A
non-nil fallback error always reaches the caller as a structured `*Error`:
the value itself when it already is one, otherwise a fresh `Error` wrapping it
with the request's method and URL; a nil fallback error yields a nil error.
`clientDo` is a total function over both shapes of the fallback's second
return value, mirroring the comma-ok type assertion in the source — no input
panics. -/
theorem c6_fallback_outcome (ec : Option (String → String → Option EndpointSettings))
    (ds : EndpointSettings) (hooks : HooksConfig) (method url path : String)
    (transport : Nat → TransportResult)
    (fb : Option TransportErr → Option HttpResponse × Option FallbackErr)
    (hfb : (resolveConfig ec ds method path).fallback = some fb)
    (hfail : (doLoop (resolveConfig ec ds method path) transport).err.isSome = true ∨
      ∃ r, (doLoop (resolveConfig ec ds method path) transport).resp = some r ∧
        400 ≤ r.statusCode) :
    (clientDo ec ds hooks method url path transport).resp =
        (fb (doLoop (resolveConfig ec ds method path) transport).err).1 ∧
      (clientDo ec ds hooks method url path transport).err =
        (match (fb (doLoop (resolveConfig ec ds method path) transport).err).2 with
          | none => none
          | some (.typed ce) => some ce
          | some (.bare e) =>
            some { statusCode := 0, body := none, err := some e, retries := 0,
                   method := method, url := url, lastResponse := none }) := by
  unfold clientDo
  dsimp only
  have hcond : ((doLoop (resolveConfig ec ds method path) transport).err.isSome ||
      (match (doLoop (resolveConfig ec ds method path) transport).resp with
        | some r => decide (400 ≤ r.statusCode)
        | none => false)) = true := by
    rcases hfail with h | ⟨r, hr, h400⟩
    · rw [h, Bool.true_or]
    · rw [hr]
      simp [h400]
  rw [hcond]
  simp only [if_true, hfb]
  cases hfe : (fb (doLoop (resolveConfig ec ds method path) transport).err).2 with
  | none => exact ⟨rfl, rfl⟩
  | some fe => cases fe <;> exact ⟨rfl, rfl⟩

/-- C6 witness: the spec's own scenario — an unreachable host (every attempt a
transport error) with a fallback returning a synthesized 200 response and a
nil error: the call returns that response and no error. -/
theorem c6_witness :
    (resolveConfig none w6Settings "GET" "/x").fallback = some w6Fb ∧
      (doLoop (resolveConfig none w6Settings "GET" "/x") w6Transport).err.isSome = true ∧
      (clientDo none w6Settings {} "GET" "http://down/x" "/x" w6Transport).resp =
        some w6Resp200 ∧
      (clientDo none w6Settings {} "GET" "http://down/x" "/x" w6Transport).err = none := by
  have h := c6_fallback_outcome none w6Settings {} "GET" "http://down/x" "/x" w6Transport w6Fb
    rfl (Or.inl (by decide))
  exact ⟨rfl, by decide, h.1, h.2⟩

/-- C9 counterexample: a call whose deadline expires at clock 10 (the
transport reports the context error for every attempt started at or after
clock 10), max-retries 2, default 200ms backoff.  The claim requires that no
new retry attempt starts once the deadline has expired and that no backoff
sleep runs to completion past the deadline.  The trace refutes both: the
backoff sleep beginning at clock 1 runs its full 200ms far beyond clock 10,
and attempt 1 is started at clock 200000001, long after the deadline. -/
theorem c9_counterexample :
    TimedEvent.sleepFull 1 200000000 ∈ c9Run.events ∧
      ¬ ((1 : Int) + 200000000 ≤ 10) ∧
      TimedEvent.attemptStart 1 200000001 ∈ c9Run.events ∧
      ¬ ((200000001 : Int) < 10) := by
  decide

/-- C9 (amended): the retry loop is not deadline-aware.  The backoff uses
`time.Sleep`, so the loop itself never observes the call's context: whenever
the retry predicate keeps answering retry (the default predicate does so both
for 5xx responses and for the context-cancellation errors a transport reports
after the deadline), the loop still starts every one of the `maxRetries + 1`
attempts — each post-deadline attempt merely failing fast inside the transport
— and every backoff sleep between them runs its full configured duration. -/
theorem c9_amended_sleeps_run_full (backoff : Int → Int)
    (transport : Nat → Int → TransportResult × Int) (m start : Int)
    (hm : 0 ≤ m)
    (h : ∀ i t, defaultShouldRetry (transport i t).1.1 (transport i t).1.2 = true) :
    (timedRetryLoop defaultShouldRetry m backoff transport start).attempts = m.toNat + 1 ∧
      sleepDurations (timedRetryLoop defaultShouldRetry m backoff transport start).events =
        (List.range m.toNat).map (fun j : Nat => backoff (j : Int)) :=
  timedRetryLoop_always_spec defaultShouldRetry m backoff transport start h hm

/-- C9 witness: the deadline-10 scenario of the counterexample run through the
amended theorem — 3 attempts started and both 200ms sleeps performed in full,
although the deadline passed during the first sleep. -/
theorem c9_witness :
    (0 : Int) ≤ 2 ∧
      c9Run.attempts = 3 ∧
      sleepDurations c9Run.events = [defaultBackoff 0, defaultBackoff 1] := by
  have h : ∀ i t, defaultShouldRetry (c9Transport i t).1.1 (c9Transport i t).1.2 = true := by
    intro i t
    by_cases ht : t < 10 <;> simp [c9Transport, ht, defaultShouldRetry]
  obtain ⟨h1, h2⟩ := c9_amended_sleeps_run_full defaultBackoff c9Transport 2 0 (by decide) h
  refine ⟨by decide, ?_, ?_⟩
  · rw [c9Run, h1]
    decide
  · rw [c9Run, h2]
    rfl

/-- C7: cache round trip.  For a cacheable call (caching enabled in the
resolved policy, method allow-listed, no skip-cache header) whose first
execution returns an allow-listed status with a readable body (an open stream
or buffer — the position of the cache middleware guarantees this, as it reads
the inner transport's fresh response before anything can close it), a second
identical request within the TTL is answered from the cache without invoking
the inner transport (`next2` is arbitrary and unused) and carries the stored
entry's status code and a byte-identical re-readable copy of the first
response's body. -/
theorem c7_cache_round_trip (config : CacheConfig) (c : EndpointSettings) (req : Request)
    (t0 t1 : Int) (st0 : CacheState)
    (next1 next2 : Request → Except TransportErr HttpResponse) (r : HttpResponse)
    (he : c.enableCache = true)
    (hskip : (headerGet req.header config.skipCacheHeader == "true") = false)
    (hmeth : config.methods.contains req.method = true)
    (hmiss : cacheGet st0 t0 ((config.keyFunc.getD defaultCacheKey) req) = none)
    (hnext : next1 req = .ok r)
    (hread : ∀ bd, r.body = some bd → (bd.readAll).2 = false)
    (hstatus : config.statusCodes.contains r.statusCode = true)
    (httl : 0 < (if 0 < c.cacheTTL then c.cacheTTL else config.defaultTTL))
    (hwithin : t1 ≤ t0 + (if 0 < c.cacheTTL then c.cacheTTL else config.defaultTTL)) :
    (cacheRoundTrip config (some c) req t0 st0 next1).innerCalled = true ∧
      (cacheRoundTrip config (some c) req t1
          (cacheRoundTrip config (some c) req t0 st0 next1).state next2).innerCalled = false ∧
      (cacheRoundTrip config (some c) req t1
          (cacheRoundTrip config (some c) req t0 st0 next1).state next2).resp =
        some { status := r.status, statusCode := r.statusCode,
               header := headerDel r.header "X-Request-Id",
               body := some (.buffer
                 (match r.body with | some bd => (bd.readAll).1 | none => [])),
               contentLength :=
                 ((match r.body with | some bd => (bd.readAll).1 | none => []) :
                   Bytes).length } := by
  have hmeth' : req.method ∈ config.methods := by simpa using hmeth
  have hstatus' : r.statusCode ∈ config.statusCodes := by simpa using hstatus
  have hRR : ReadAndRestoreBody r =
      .ok ((match r.body with
            | some bd => { r with body := some (RespBody.buffer (bd.readAll).1) }
            | none => r),
           (match r.body with | some bd => (bd.readAll).1 | none => [])) := by
    cases hb : r.body with
    | none => simp [ReadAndRestoreBody, hb]
    | some bd => simp [ReadAndRestoreBody, hb, hread bd hb]
  have hR1s : (cacheRoundTrip config (some c) req t0 st0 next1).state =
      cacheSet st0 t0 ((config.keyFunc.getD defaultCacheKey) req)
        { status := r.status, statusCode := r.statusCode,
          header := headerDel r.header "X-Request-Id",
          body := match r.body with | some bd => (bd.readAll).1 | none => [] }
        (if 0 < c.cacheTTL then c.cacheTTL else config.defaultTTL) := by
    simp [cacheRoundTrip, he, hskip, hmeth', hmiss, hnext, hstatus', hRR]
  have hget2 : cacheGet
      (cacheSet st0 t0 ((config.keyFunc.getD defaultCacheKey) req)
        { status := r.status, statusCode := r.statusCode,
          header := headerDel r.header "X-Request-Id",
          body := match r.body with | some bd => (bd.readAll).1 | none => [] }
        (if 0 < c.cacheTTL then c.cacheTTL else config.defaultTTL))
      t1 ((config.keyFunc.getD defaultCacheKey) req) =
      some { status := r.status, statusCode := r.statusCode,
             header := headerDel r.header "X-Request-Id",
             body := match r.body with | some bd => (bd.readAll).1 | none => [] } := by
    unfold cacheSet cacheGet
    rw [if_pos httl]
    rw [List.find?_cons_of_pos _ (by simp)]
    dsimp only
    rw [if_neg (by omega)]
  refine ⟨?_, ?_, ?_⟩
  · simp [cacheRoundTrip, he, hskip, hmeth', hmiss, hnext, hstatus', hRR]
  · rw [hR1s]
    simp [cacheRoundTrip, he, hskip, hmeth', hget2]
  · rw [hR1s]
    simp [cacheRoundTrip, he, hskip, hmeth', hget2]

/-- C7 witness: TTL 3, GET to a 200 endpoint with a four-byte body at clock 0;
the same GET at clock 2 is served from the cache — the second inner transport
(which would fail loudly) is not reached — with status 200 and the identical
bytes. -/
theorem c7_witness :
    (cacheRoundTrip w7Config (some w7Settings) w7Req 0 [] w7Next1).innerCalled = true ∧
      (cacheRoundTrip w7Config (some w7Settings) w7Req 2
          (cacheRoundTrip w7Config (some w7Settings) w7Req 0 [] w7Next1).state
          w7Next2).innerCalled = false ∧
      (cacheRoundTrip w7Config (some w7Settings) w7Req 2
          (cacheRoundTrip w7Config (some w7Settings) w7Req 0 [] w7Next1).state w7Next2).resp =
        some { status := "200 OK", statusCode := 200, header := [],
               body := some (.buffer [104, 111, 108, 97]), contentLength := 4 } := by
  have h := c7_cache_round_trip w7Config w7Settings w7Req 0 2 [] w7Next1 w7Next2 w7Resp
    rfl (by decide) (by decide) rfl rfl
    (by intro bd hb; obtain rfl := Option.some_inj.mp hb; rfl)
    (by decide) (by decide) (by decide)
  refine ⟨h.1, h.2.1, ?_⟩
  rw [h.2.2]
  rfl

end GoSdk
